import Mathlib

/-!
Verification development for the sitemap discovery / classification /
extraction / coverage pipeline of the next-sitemap repository
(src/utils/sitemap.ts and src/app/api/urls/route.ts).

The TypeScript source is shallowly embedded: pure computations become Lean
functions over `String` / `List`; the network, the DOM and the JS regex
engine appear as explicit oracle parameters; JS exceptions become
`Option` / `Except`; JS objects keyed by URL become association lists with
JS property-assignment semantics.
-/

namespace Sitemap

/-! ## Generic string helpers (character-list based, fully computable) -/

/-- True when `p` occurs as a contiguous substring of `l` (JS `String.includes`). -/
def listContainsSub (p : List Char) : List Char → Bool
  | [] => p.isPrefixOf ([] : List Char)
  | c :: t => p.isPrefixOf (c :: t) || listContainsSub p t

/-- JS `s.includes(p)`. -/
def strContainsSub (s p : String) : Bool :=
  listContainsSub p.data s.data

/-- JS `s.startsWith(p)`. -/
def strStarts (s p : String) : Bool :=
  p.data.isPrefixOf s.data

/-- ASCII lower-casing, modelling JS `toLowerCase` on the ASCII range. -/
def strLower (s : String) : String :=
  ⟨s.data.map Char.toLower⟩

/-- Split a character list at every occurrence of `c` (JS `String.split`). -/
def splitOnCharL (c : Char) : List Char → List (List Char)
  | [] => [[]]
  | d :: t =>
    let rest := splitOnCharL c t
    if d = c then [] :: rest
    else
      match rest with
      | [] => [[d]]
      | h :: r => (d :: h) :: r

/-- JS `s.split(c)`; the result is always non-empty. -/
def strSplitChar (s : String) (c : Char) : List String :=
  (splitOnCharL c s.data).map (fun l => ⟨l⟩)

/-- JS `s.split(c).pop()` — the last piece of the split (split is never empty). -/
def strSplitLast (s : String) (c : Char) : String :=
  (strSplitChar s c).getLastD ""

/-- Keep the longest prefix of `s` whose characters satisfy `p`. -/
def strTakeWhile (s : String) (p : Char → Bool) : String :=
  ⟨s.data.takeWhile p⟩

/-- Drop the longest prefix of `s` whose characters satisfy `p`. -/
def strDropWhile (s : String) (p : Char → Bool) : String :=
  ⟨s.data.dropWhile p⟩

/-- JS `s.replace(/X+$/, '')` for a character class: drop a trailing run. -/
def strDropRightWhile (s : String) (p : Char → Bool) : String :=
  ⟨(s.data.reverse.dropWhile p).reverse⟩

/-- First `n` characters of `s` (JS `String.substring(0, n)`). -/
def strTake (s : String) (n : Nat) : String :=
  ⟨s.data.take n⟩

/-- Number of characters of `s` (JS `String.length` for BMP text). -/
def strLen (s : String) : Nat :=
  s.data.length

/-! ## JS value helpers

`Option String` models a JS value that is a string or `null`/`undefined`;
`none` and `some ""` are both falsy, matching JS truthiness for the
`a || b` idiom. -/

/-- JS truthiness of a string-or-nullish value. -/
def jsTruthy : Option String → Bool
  | none => false
  | some s => s ≠ ""

/-- JS `a || b` on string-or-nullish values: `b` when `a` is falsy. -/
def jsOr (a b : Option String) : Option String :=
  if jsTruthy a then a else b

/-- JS `a || b || c` on string-or-nullish values. -/
def jsOr3 (a b c : Option String) : Option String :=
  jsOr a (jsOr b c)

/-- JS `xs.filter(Boolean)` over string-or-nullish values. -/
def jsFilterTruthy (l : List (Option String)) : List String :=
  l.filterMap (fun o => if jsTruthy o then o else none)

/-- Model of JS `parseInt(s)` (radix 10, leading digits, optional sign);
`none` is `NaN`. The hexadecimal `0x` autodetection of the builtin is not
reachable from the inputs this repository feeds it and is omitted. -/
def jsParseInt (s : String) : Option Int :=
  let t := strDropWhile s (fun c => c = ' ' || c = '\t' || c = '\n' || c = '\r')
  let sign : Int := if strStarts t "-" then -1 else 1
  let body := if strStarts t "-" || strStarts t "+" then ⟨t.data.drop 1⟩ else t
  let digits := strTakeWhile body Char.isDigit
  if digits = "" then none
  else some (sign * (Int.ofNat (digits.data.foldl (fun a c => a * 10 + (c.toNat - 48)) 0)))

/-! ## Model of the WHATWG `new URL(u)` constructor

Restricted to absolute http(s) URLs, which is all this repository ever
builds or consumes: a parse succeeds exactly when the string starts with
`http://` or `https://` followed by a non-empty host; any other string
(e.g. `"notaurl"`) makes the constructor throw, modelled as `none`.
`origin` and `pathname` follow the builtin (`pathname` defaults to `/`
and stops at `?` or `#`). -/

structure JsUrl where
  origin : String
  pathname : String
  deriving Repr, DecidableEq

/-- Parse an absolute http(s) URL; `none` models the constructor throwing. -/
def parseURL (s : String) : Option JsUrl :=
  let parseWith (scheme : String) : Option JsUrl :=
    let rest : String := ⟨s.data.drop (strLen scheme)⟩
    let host := strTakeWhile rest (fun c => c ≠ '/' && c ≠ '?' && c ≠ '#')
    if host = "" then none
    else
      let tail : String := ⟨rest.data.drop (strLen host)⟩
      let path := strTakeWhile tail (fun c => c ≠ '?' && c ≠ '#')
      some { origin := scheme ++ host, pathname := if path = "" then "/" else path }
  if strStarts s "https://" then parseWith "https://"
  else if strStarts s "http://" then parseWith "http://"
  else none

/-! ## URL classifier — `categorizeUrl` (src/utils/sitemap.ts lines 387-473)

The function is `async` but performs no I/O; its only failure point is
`new URL(url)`, which throws on a malformed non-empty string.  The result
is therefore `Option String`: `none` models the thrown `TypeError`.
The `urlLower` local of the source is computed but never used by the
pattern checks (they all read `pathname`), so it is not reproduced. -/

def categoryPatterns : List String :=
  ["/kategori/", "/category/", "/blog/kategori/", "/blog/category/", "/cat/", "/collections/"]

def productCategoryPatterns : List String :=
  ["/kategori/", "/category/", "/cat/", "/collections/"]

def productPatterns : List String :=
  ["/urun/", "/product/", "/p/", "/shop/", "/item/", "/product-detail/"]

def blogPatterns : List String :=
  ["/blog/icerik/", "/icerik/", "/blog/"]

def staticPatterns : List String :=
  ["/sayfa/", "/page/", "/about", "/contact",
   "/faq", "/terms", "/privacy", "/hakkimizda",
   "/iletisim", "/yardim", "/help", "/support",
   "/gizlilik", "/sss", "/sikca-sorulan-sorular",
   "/shipping", "/returns", "/iade", "/kargom-nerede",
   "/indirimli-urunler"]

/-- Embedding of `categorizeUrl`.  `some label` is a normal return; `none`
models the `TypeError` thrown by `new URL(url)` on a malformed non-empty
string. -/
def categorizeUrl (url : String) : Option String :=
  if url = "" then some "static"
  else
    match parseURL url with
    | none => none
    | some u =>
      if u.pathname = "/" then some "static"
      else if strStarts u.pathname "/urun/" then some "product"
      else if strStarts u.pathname "/blog/icerik/" then some "blog"
      else if categoryPatterns.any (fun p => strStarts u.pathname p) then some "category"
      else if productCategoryPatterns.any
          (fun p => strStarts u.pathname p && !(strContainsSub u.pathname "/blog/")) then
        some "category"
      else if productPatterns.any (fun p => strStarts u.pathname p) then some "product"
      else if blogPatterns.any (fun p => strStarts u.pathname p)
          && !(strContainsSub u.pathname "/blog/kategori/")
          && !(strContainsSub u.pathname "/blog/category/") then
        some "blog"
      else if staticPatterns.any
          (fun p => strStarts (strTakeWhile u.pathname (fun c => c ≠ '?')) p) then
        some "static"
      else some "others"

/-! ## Data model — `PageData` (src/utils/sitemap.ts lines 41-59)

Optional fields are `Option`; `structuredData` (typed `any`, computed but
never attached to the record in `extractPageData`) and `comments` (never
written by the embedded code paths) are omitted. -/

structure PageData where
  url : String
  title : Option String := none
  description : Option String := none
  price : Option String := none
  stockStatus : Option String := none
  images : Option (List String) := none
  category : Option String := none
  date : Option String := none
  features : Option (List String) := none
  breadcrumb : Option (List String) := none
  blogContent : Option String := none
  blogCategories : Option (List String) := none
  timestamp : Option String := none
  error : Option String := none
  type : Option String := none
  deriving Repr, DecidableEq

/-! ## Record maps

A JS object keyed by URL (`Record<string, PageData>`): an association list
with distinct keys in insertion order.  `result[url] = v` updates in place
when the key exists and appends otherwise, exactly the JS property
assignment on a plain object. -/

abbrev RecordMap := List (String × PageData)

/-- JS property read `m[url]` (`undefined` is `none`). -/
def lookupRecord : RecordMap → String → Option PageData
  | [], _ => none
  | (k, v) :: rest, u => if k = u then some v else lookupRecord rest u

/-- JS property assignment `m[url] = d`. -/
def setRecord : RecordMap → String → PageData → RecordMap
  | [], u, d => [(u, d)]
  | (k, v) :: rest, u, d =>
    if k = u then (k, d) :: rest else (k, v) :: setRecord rest u d

/-- Number of records whose `type` field equals the string `t`
(JS `Object.values(m).filter(item => item.type === t).length`). -/
def countType (m : RecordMap) (t : String) : Nat :=
  (m.filter (fun p => p.2.type = some t)).length

/-- JS `Object.values(m).some(item => item.type === t)`. -/
def anyType (m : RecordMap) (t : String) : Bool :=
  m.any (fun p => p.2.type = some t)

/-! ## Stats — `getPageStats` (src/utils/sitemap.ts lines 1710-1730) -/

structure SiteStats where
  all : Nat
  product : Nat
  blog : Nat
  category : Nat
  static : Nat
  deriving Repr, DecidableEq

/-- `const type = data.type || 'static'` (line 1721): a missing or empty
`type` falls back to `"static"`. -/
def normType : Option String → String
  | some ty => if ty = "" then "static" else ty
  | none => "static"

/-- One loop iteration of `getPageStats`: `stats.all++` followed by the
dynamic `stats[type]++` (unknown types fall into `static`; the literal
string `"all"` hits the `all` counter, since `stats['all']` is defined). -/
def bumpStats (s : SiteStats) (d : PageData) : SiteStats :=
  let s := { s with all := s.all + 1 }
  let t := normType d.type
  if t = "all" then { s with all := s.all + 1 }
  else if t = "product" then { s with product := s.product + 1 }
  else if t = "blog" then { s with blog := s.blog + 1 }
  else if t = "category" then { s with category := s.category + 1 }
  else if t = "static" then { s with static := s.static + 1 }
  else { s with static := s.static + 1 }

/-- True when a record whose `type` is `o` is tallied under the `static`
counter of `getPageStats` (every normalized type other than the four
explicit counter names). -/
def isStaticBucket (o : Option String) : Bool :=
  normType o ≠ "all" && normType o ≠ "product" && normType o ≠ "blog" &&
    normType o ≠ "category"

/-- Number of records tallied under a given normalized type. -/
def countNorm (m : RecordMap) (t : String) : Nat :=
  (m.filter (fun p => normType p.2.type = t)).length

/-- Number of records tallied under the `static` counter. -/
def countStaticBucket (m : RecordMap) : Nat :=
  (m.filter (fun p => isStaticBucket p.2.type)).length

/-- Embedding of `getPageStats`. -/
def getPageStats (m : RecordMap) : SiteStats :=
  m.foldl (fun s p => bumpStats s p.2) ⟨0, 0, 0, 0, 0⟩

/-! ## Coverage Guarantor — `ensureMinimumPageTypes`
(src/utils/sitemap.ts lines 1806-1940)

Pure apart from `new Date()` and `encodeURIComponent`, which become the
parameters `now` (ISO timestamp string) and `enc` (the percent-encoder,
used only inside placeholder image URLs). -/

/-- JS `baseUrl.replace(/\/+$/, '')`. -/
def normalizeBaseUrl (baseUrl : String) : String :=
  strDropRightWhile baseUrl (fun c => c = '/')

/-- Locale detection over the existing URL keys (lines 1811-1817). -/
def detectTurkishSite (m : RecordMap) : Bool :=
  m.any (fun p =>
    strContainsSub p.1 "/sayfa/" ||
    strContainsSub p.1 "/kategori/" ||
    strContainsSub p.1 "/icerik/" ||
    strContainsSub p.1 "/hakkimizda" ||
    strContainsSub p.1 "/iletisim")

/-- Synthetic static pages: `(path, title, description)` (lines 1831-1843);
the path already carries the locale's static URL pattern. -/
def syntheticStaticPages (tk : Bool) : List (String × String × String) :=
  if tk then
    [("/sayfa/hakkimizda", "Hakkımızda", "Şirketimiz hakkında bilgi edinin."),
     ("/sayfa/iletisim", "İletişim", "Bizimle iletişime geçin."),
     ("/sayfa/gizlilik-politikasi", "Gizlilik Politikası", "Gizlilik politikamız hakkında bilgi."),
     ("/sayfa/satis-sozlesmesi", "Satış Sözleşmesi", "Satış koşullarımız ve şartlarımız."),
     ("/sayfa/sikca-sorulan-sorular", "Sıkça Sorulan Sorular", "En çok sorulan sorular ve cevapları.")]
  else
    [("/about-us", "About Us", "Learn about our company and mission."),
     ("/contact", "Contact Us", "Get in touch with our team."),
     ("/privacy-policy", "Privacy Policy", "How we handle and protect your data."),
     ("/terms-of-service", "Terms of Service", "Our terms and conditions."),
     ("/faq", "Frequently Asked Questions", "Answers to common questions.")]

/-- Synthetic blog posts: `(slug, title, description)` (lines 1861-1869). -/
def syntheticBlogPosts (tk : Bool) : List (String × String × String) :=
  if tk then
    [("yeni-urunlerimiz-hakkinda", "Yeni Ürünlerimiz Hakkında", "Yeni ürünlerimizi inceleyin."),
     ("musteri-deneyimleri", "Müşteri Deneyimleri", "Müşterilerimizin deneyimlerini okuyun."),
     ("sektor-haberleri", "Sektör Haberleri", "Sektördeki son gelişmeler.")]
  else
    [("new-product-announcement", "New Product Announcement", "Check out our newest products."),
     ("customer-testimonials", "Customer Testimonials", "Read about our customers' experiences."),
     ("industry-news", "Industry News", "Latest developments in our industry.")]

/-- Synthetic category pages: `(slug, name, description)` (lines 1903-1911). -/
def syntheticCategories (tk : Bool) : List (String × String × String) :=
  if tk then
    [("yeni-gelenler", "Yeni Gelenler", "En yeni ürünlerimiz."),
     ("en-cok-satanlar", "En Çok Satanlar", "En popüler ürünlerimiz."),
     ("indirimli-urunler", "İndirimli Ürünler", "İndirimli ürünlerimiz.")]
  else
    [("new-arrivals", "New Arrivals", "Our newest products."),
     ("best-sellers", "Best Sellers", "Our most popular products."),
     ("sale-items", "Sale Items", "Products with special discounts.")]

/-- The locale's blog URL pattern (line 1821). -/
def blogUrlPatternOf (tk : Bool) : String :=
  if tk then "/blog/icerik/" else "/blog/"

/-- The locale's category URL pattern (line 1822). -/
def categoryUrlPatternOf (tk : Bool) : String :=
  if tk then "/kategori/" else "/category/"

/-- A sequence of `result[url] = record` assignments, in order (the shape
of the three injection for-loops). -/
def writeRecords (m : RecordMap) : List (String × PageData) → RecordMap
  | [] => m
  | w :: ws => writeRecords (setRecord m w.1 w.2) ws

/-- The static-page injection loop (lines 1845-1856) as url/record pairs. -/
def staticPageWrites (nb : String) (tk : Bool) (now : String) : List (String × PageData) :=
  (syntheticStaticPages tk).map (fun page =>
    (nb ++ page.1,
     { url := nb ++ page.1, title := some page.2.1, description := some page.2.2,
       type := some "static", timestamp := some now }))

/-- The blog-post injection loop (lines 1871-1886) as url/record pairs. -/
def blogPostWrites (nb : String) (tk : Bool) (now : String) (enc : String → String) :
    List (String × PageData) :=
  (syntheticBlogPosts tk).map (fun post =>
    (nb ++ (blogUrlPatternOf tk ++ post.1),
     { url := nb ++ (blogUrlPatternOf tk ++ post.1),
       title := some post.2.1, description := some post.2.2,
       type := some "blog", date := some (strTakeWhile now (fun c => c ≠ 'T')),
       blogCategories := some (if tk then ["Genel", "Haberler"] else ["General", "News"]),
       blogContent := some (if tk then "Bu bir örnek blog yazısıdır."
         else "This is a sample blog post."),
       timestamp := some now,
       images := some ["https://via.placeholder.com/800x400?text=" ++ enc post.2.1] }))

/-- The blog index record written at `nb ++ "/blog"` (lines 1888-1897). -/
def blogIndexRecord (nb : String) (tk : Bool) (now : String) : PageData :=
  { url := nb ++ "/blog", title := some "Blog",
    description := some (if tk then "Blog yazılarımız" else "Our blog posts"),
    type := some "static", timestamp := some now }

/-- The conditional category injection loop (lines 1913-1925) as
url/record pairs. -/
def categoryWrites (nb : String) (tk : Bool) (now : String) (enc : String → String) :
    List (String × PageData) :=
  (syntheticCategories tk).map (fun cat =>
    (nb ++ (categoryUrlPatternOf tk ++ cat.1),
     { url := nb ++ (categoryUrlPatternOf tk ++ cat.1),
       title := some cat.2.1, description := some cat.2.2,
       type := some "category", category := some cat.2.1,
       timestamp := some now,
       images := some ["https://via.placeholder.com/800x400?text=" ++ enc cat.2.1] }))

/-- The record map after the unconditional injections of
`ensureMinimumPageTypes` (static pages at lines 1845-1856, blog posts at
lines 1871-1886, the blog index at lines 1888-1897). -/
def ensureMinimumBase (baseUrl : String) (processedData : RecordMap)
    (now : String) (enc : String → String) : RecordMap :=
  setRecord
    (writeRecords
      (writeRecords processedData
        (staticPageWrites (normalizeBaseUrl baseUrl) (detectTurkishSite processedData) now))
      (blogPostWrites (normalizeBaseUrl baseUrl) (detectTurkishSite processedData) now enc))
    (normalizeBaseUrl baseUrl ++ "/blog")
    (blogIndexRecord (normalizeBaseUrl baseUrl) (detectTurkishSite processedData) now)

/-- Embedding of `ensureMinimumPageTypes`: the unconditional injections of
`ensureMinimumBase`, then the synthetic category pages when fewer than 3
category records exist (line 1900). -/
def ensureMinimumPageTypes (baseUrl : String) (processedData : RecordMap)
    (now : String) (enc : String → String) : RecordMap :=
  if countType (ensureMinimumBase baseUrl processedData now enc) "category" < 3 then
    writeRecords (ensureMinimumBase baseUrl processedData now enc)
      (categoryWrites (normalizeBaseUrl baseUrl) (detectTurkishSite processedData) now enc)
  else ensureMinimumBase baseUrl processedData now enc

/-- The fixed set of URLs `ensureMinimumPageTypes` may write for a given
base URL and input map (static pages, blog posts, blog index and the
conditionally written category pages). -/
def injectedUrls (baseUrl : String) (m : RecordMap) : List String :=
  let nb := normalizeBaseUrl baseUrl
  let tk := detectTurkishSite m
  (syntheticStaticPages tk).map (fun page => nb ++ page.1) ++
    (syntheticBlogPosts tk).map (fun post => nb ++ (blogUrlPatternOf tk ++ post.1)) ++
    [nb ++ "/blog"] ++
    (syntheticCategories tk).map (fun cat => nb ++ (categoryUrlPatternOf tk ++ cat.1))

/-- The sample blog record force-added by `processSitemap`
(src/utils/sitemap.ts lines 1759-1773) when no blog record exists. -/
def sampleBlogRecord (u : String) (now : String) : PageData :=
  { url := u, title := some "Sample Blog Post",
    description := some "This is a sample blog post created automatically.",
    type := some "blog", timestamp := some now,
    date := some (strTakeWhile now (fun c => c ≠ 'T')),
    blogCategories := some ["Sample", "Blog"],
    blogContent := some "This is a sample blog post content. The actual content would be fetched from the website.",
    images := some ["https://via.placeholder.com/800x400?text=Sample+Blog+Post"] }

/-- The force-add step of `processSitemap` (lines 1759-1773): when no
record of type `blog` exists, write the guaranteed sample blog post. -/
def forceSampleBlog (siteUrl : String) (m : RecordMap) (now : String) : RecordMap :=
  if anyType m "blog" then m
  else
    setRecord m (normalizeBaseUrl siteUrl ++ "/blog/sample-post")
      (sampleBlogRecord (normalizeBaseUrl siteUrl ++ "/blog/sample-post") now)

/-- Pure tail of `processSitemap` (src/utils/sitemap.ts lines 1737-1782):
after network extraction produced `extracted`, the pipeline runs
`ensureMinimumPageTypes`, force-adds a sample blog post when no record
of type `blog` exists, and computes `getPageStats`. -/
def processSitemapRecords (siteUrl : String) (extracted : RecordMap)
    (now : String) (enc : String → String) : RecordMap × SiteStats :=
  (forceSampleBlog siteUrl (ensureMinimumPageTypes siteUrl extracted now enc) now,
   getPageStats (forceSampleBlog siteUrl (ensureMinimumPageTypes siteUrl extracted now enc) now))

/-! ## Sitemap discovery — `fetchSitemapUrls`
(src/utils/sitemap.ts lines 217-264)

The network is the oracle `world`, mapping the fetched URL to what the
HTTP GET plus the XML parse produced: `fail` (the GET or the parse threw,
caught at line 260), `index children` (a sitemap index whose `<sitemap>`
entries carry `children` as `loc` values), `urlset locs` (a URL set), or
`other` (well-formed XML that is neither).  `tryAlternativeSitemapUrls`
(lines 176-215, itself exception-free) is the oracle `resolve`; it is
consulted exactly when the entry URL does not contain "sitemap"
case-insensitively, and a `none` answer (no candidate responded) leaves
the URL unchanged.  Batching inside the index branch concatenates the
per-child results in input order, so it equals an ordered flat map. -/

inductive FetchResult where
  | fail : FetchResult
  | index : List String → FetchResult
  | urlset : List String → FetchResult
  | other : FetchResult

/-- The final filter at lines 252-259: keep strings `new URL` accepts. -/
def isValidUrl (s : String) : Bool :=
  (parseURL s).isSome

/-- The alternative-location probe step at lines 221-227. -/
def resolveSitemapUrl (resolve : String → Option String) (sitemapUrl : String) : String :=
  if !(strContainsSub (strLower sitemapUrl) "sitemap") then
    match resolve sitemapUrl with
    | some u => u
    | none => sitemapUrl
  else sitemapUrl

/-- Embedding of `fetchSitemapUrls`.  Lean accepts the definition as
total, which is exactly the termination argument of the claim: every
recursive call increases `depth` and `depth > 5` short-circuits to `[]`. -/
def fetchSitemapUrls (world : String → FetchResult) (resolve : String → Option String)
    (sitemapUrl : String) (depth : Nat) : List String :=
  if _h : depth > 5 then []
  else
    match world (resolveSitemapUrl resolve sitemapUrl) with
    | .fail => []
    | .index children =>
      ((children.map (fun c => fetchSitemapUrls world resolve c (depth + 1))).flatten).filter
        isValidUrl
    | .urlset locs => locs.filter isValidUrl
    | .other => []
termination_by 6 - depth
decreasing_by omega

/-! ## Batch scheduler — `processInBatches`
(src/utils/sitemap.ts lines 1151-1171)

A handler is an async unit returning a promise; its settled outcome is
`Except ε β` (`error` = rejection).  The scheduler's `.catch(error =>
({error}))` converts a rejection into a resolved `{error}` object, so a
result slot is a `Settled` value.  Within a window `Promise.all`
preserves input order, and windows are concatenated in order; the
inter-batch delay has no effect on the value. -/

inductive Settled (ε β : Type) where
  | value : β → Settled ε β
  | errorObj : ε → Settled ε β
  deriving Repr, DecidableEq

/-- The per-item `p.catch(error => ({error}))` at line 1161. -/
def jsCatch {ε β : Type} : Except ε β → Settled ε β
  | .ok b => .value b
  | .error e => .errorObj e

/-- `CRAWL_CONFIG.batchProcessing.maxConcurrent` (line 167). -/
def maxConcurrent : Nat := 10

/-- Embedding of `processInBatches`: fixed-size windows of `maxConcurrent`
items, each window's settled results appended in input order. -/
def processInBatches {α ε β : Type} (items : List α) (handler : α → Except ε β) :
    List (Settled ε β) :=
  match items with
  | [] => []
  | a :: rest =>
    ((a :: rest).take maxConcurrent).map (fun it => jsCatch (handler it)) ++
      processInBatches ((a :: rest).drop maxConcurrent) handler
termination_by items.length
decreasing_by
  simp [List.length_drop, maxConcurrent]
  omega

/-! ## POST /api/urls `maxUrls` truncation
(src/app/api/urls/route.ts lines 88-89)

`maxUrls` arrives from the request JSON: absent (`none`) or a string.
`urls.slice(0, parseInt(maxUrls))`: `parseInt(undefined)` parses the
string `"undefined"`, giving `NaN`, and `Array.prototype.slice` converts a
`NaN` end bound to `0`. -/

/-- JS `arr.slice(0, stop)` for an integer or NaN (`none`) end bound. -/
def jsSliceTo {α : Type} (l : List α) (stop : Option Int) : List α :=
  match stop with
  | none => []
  | some n =>
    if n < 0 then l.take (l.length - (-n).toNat)
    else l.take n.toNat

/-- Embedding of `const limitedUrls = maxUrls === 'all' ? urls :
urls.slice(0, parseInt(maxUrls as string))`. -/
def limitUrls (urls : List String) (maxUrls : Option String) : List String :=
  if maxUrls = some "all" then urls
  else
    jsSliceTo urls (jsParseInt (match maxUrls with
      | some s => s
      | none => "undefined"))

/-! ## Page Content Extractor, blog path — `extractPageData`
(src/utils/sitemap.ts lines 475-808)

The fetched page's parsed DOM is the oracle `DomDocument`: `query` is
`document.querySelector` (`none` = no match), `queryAll` is
`document.querySelectorAll` in document order, `attr` is
`getAttribute` (`none` = attribute absent), `textContent` is the node's
text (`none` = nullish).  The JS regex scan over the raw HTML for
date-shaped substrings (lines 566-577) is the oracle `dateScan`, and
`new Date()` is the parameter `now` (ISO string).  The only statement of
the blog branch that can throw is `new URL(url)` inside the
relative-image fix (line 788); a throw lands in the outer catch of
`extractPageData`, so the embedding returns `Except`. -/

structure DomElement where
  attr : String → Option String
  textContent : Option String

structure DomDocument where
  title : String
  query : String → Option DomElement
  queryAll : String → List DomElement
  innerHTML : String

/-- JS `String.prototype.trim`. -/
def strTrim (s : String) : String :=
  let ws := fun c => c = ' ' || c = '\t' || c = '\n' || c = '\r' || c = '\x0b' || c = '\x0c'
  strDropRightWhile (strDropWhile s ws) ws

/-- JS `a || b` on plain strings. -/
def jsOrS (a b : String) : String :=
  if a ≠ "" then a else b

/-- `document.querySelector(sel)?.getAttribute('content')`. -/
def contentOf (doc : DomDocument) (sel : String) : Option String :=
  (doc.query sel).bind (fun el => el.attr "content")

/-- `document.title || url.split('/').pop() || 'Untitled'` (line 495). -/
def pageTitle (doc : DomDocument) (url : String) : String :=
  jsOrS doc.title (jsOrS (strSplitLast url '/') "Untitled")

/-- The common description fallback chain (lines 496-498). -/
def pageDescription (doc : DomDocument) : String :=
  (jsOr3 (contentOf doc "meta[name=\"description\"]")
    (contentOf doc "meta[property=\"og:description\"]")
    (some "No description available")).getD ""

/-- Initial image collection (lines 504-518): the Open Graph image, else
up to five `img[src]` sources. -/
def initialImages (doc : DomDocument) : List String :=
  let ogImage := contentOf doc "meta[property=\"og:image\"]"
  if jsTruthy ogImage then [ogImage.getD ""]
  else
    let imageUrls :=
      (jsFilterTruthy ((doc.queryAll "img[src]").map (fun img => img.attr "src"))).take 5
    if imageUrls.length > 0 then imageUrls else []

/-- The blog-branch guard (lines 524-530). -/
def isBlogHandled (url : String) (doc : DomDocument) : Bool :=
  let ul := strLower url
  strContainsSub ul "/blog/" || strContainsSub ul "/icerik/" ||
    strContainsSub ul "/kategori/" || strContainsSub ul "/news/" ||
    strContainsSub ul "/article/" || strContainsSub ul "/post/" ||
    (doc.query "article, .post, .blog-post").isSome

def dateSelectors : List String :=
  ["meta[property=\"article:published_time\"]", "time[datetime]", ".post-date",
   ".blog-date", ".date", "[itemprop=\"datePublished\"]", ".entry-date",
   ".entry-meta time", ".post-meta time", ".blog-detail-date", ".article-date",
   ".publish-date", ".blog-icerik-date", ".icerik-tarih", ".yayinlanma-tarihi"]

def blogDescriptionSelectors : List String :=
  ["meta[property=\"og:description\"]", "meta[name=\"description\"]", ".blog-summary",
   ".blog-excerpt", ".post-summary", ".article-summary", ".entry-summary",
   ".post-content p:first-child", ".blog-content p:first-child", ".icerik-ozet",
   ".blog-icerik-ozet", ".yazi-ozeti"]

def blogRegenContentSelectors : List String :=
  ["article p", ".blog-content p", ".post-content p", ".entry-content p", ".icerik p"]

def blogCategorySelectors : List String :=
  [".post-categories a", ".blog-categories a", ".categories a",
   "meta[property=\"article:section\"]", ".entry-categories a", ".post-meta .category",
   ".blog-detail-categories a", ".post-category", ".article-categories",
   ".kategori a", ".blog-kategori a", ".icerik-kategori", ".breadcrumb li a"]

def blogContentSelectors : List String :=
  ["article .content", ".post-content", ".blog-content", ".entry-content",
   ".blog-detail-content", ".article-content", "article p", ".post .entry",
   ".blog-text", ".icerik-content", ".blog-icerik"]

def blogImageSelectors : List String :=
  [".post-featured-image img", ".blog-image img", ".entry-image img", "article img",
   ".post img", ".blog-featured-image img", ".icerik-resim img",
   ".blog-icerik-image img", ".blog-cover img"]

def breadcrumbSelectors : List String :=
  [".breadcrumb li", ".breadcrumbs li", "nav[aria-label=\"breadcrumb\"] li",
   "[itemtype*=\"BreadcrumbList\"] [itemprop=\"itemListElement\"]"]

/-- First selector whose `querySelector` finds an element (the date loop at
lines 553-561 breaks on the first found element, whatever its value). -/
def firstElementHit (doc : DomDocument) : List String → Option DomElement
  | [] => none
  | sel :: rest =>
    match doc.query sel with
    | some el => some el
    | none => firstElementHit doc rest

/-- Blog publication date (lines 534-583). -/
def blogDate (doc : DomDocument) (now : String) (dateScan : String → Option String) :
    Option String :=
  let d1 : Option String :=
    match firstElementHit doc dateSelectors with
    | some el => jsOr3 (el.attr "datetime") (el.attr "content") (el.textContent.map strTrim)
    | none => none
  let d2 := if jsTruthy d1 then d1 else
    match dateScan doc.innerHTML with
    | some m => some m
    | none => d1
  if jsTruthy d2 then d2 else some (strTakeWhile now (fun c => c ≠ 'T'))

/-- The blog description selector loop (lines 601-610): first selector
whose element yields a text longer than 10 characters. -/
def firstLongDescription (doc : DomDocument) : List String → Option String
  | [] => none
  | sel :: rest =>
    match doc.query sel with
    | some el =>
      let t := jsOr (el.attr "content") (el.textContent.map strTrim)
      if jsTruthy t && strLen (t.getD "") > 10 then some (t.getD "")
      else firstLongDescription doc rest
    | none => firstLongDescription doc rest

/-- The paragraph-combining description fallback (lines 614-636): note
that a nullish `textContent` concatenates as the string `"undefined"`. -/
def firstParagraphDescription (doc : DomDocument) : List String → Option String
  | [] => none
  | sel :: rest =>
    let paragraphs := doc.queryAll sel
    if paragraphs.length > 0 then
      let description := String.join ((paragraphs.take 2).map (fun p =>
        (match p.textContent with
         | some t => strTrim t
         | none => "undefined") ++ " "))
      if strLen description > 10 then some (strTake description 160 ++ "...")
      else firstParagraphDescription doc rest
    else firstParagraphDescription doc rest

/-- The description regeneration block (lines 613-642); unreachable with a
non-empty incoming description, which the prelude always provides. -/
def blogDescriptionStep (doc : DomDocument) (title desc : String) : String :=
  if desc ≠ "" then desc
  else
    match firstParagraphDescription doc blogRegenContentSelectors with
    | some d => d
    | none => if title ≠ "" then title ++ ": Blog post on this topic." else desc

/-- The category selector loop (lines 661-672). -/
def firstCategoryList (doc : DomDocument) : List String → List String
  | [] => []
  | sel :: rest =>
    let elements := doc.queryAll sel
    if elements.length > 0 then
      let cats := jsFilterTruthy (elements.map (fun el =>
        jsOr (el.attr "content") (el.textContent.map strTrim)))
      if cats.length > 0 then cats else firstCategoryList doc rest
    else firstCategoryList doc rest

/-- JS `\w` (ASCII word character). -/
def isWordChar (c : Char) : Bool :=
  c.isAlphanum || c = '_'

/-- Upper-case every character that starts a word (a word character whose
predecessor is absent or not a word character). -/
def upWordStarts : Option Char → List Char → List Char
  | _, [] => []
  | prev, c :: t =>
    let c' := if isWordChar c &&
        (match prev with
         | none => true
         | some p => !isWordChar p) then c.toUpper else c
    c' :: upWordStarts (some c) t

/-- Slug humanization (lines 679-681): every hyphen becomes a space, then
each word-initial ASCII word character is upper-cased. -/
def titleCaseSlug (slug : String) : String :=
  ⟨upWordStarts none (slug.data.map (fun c => if c = '-' then ' ' else c))⟩

/-- Scan for the leftmost occurrence of `pat` that is followed by at least
one non-slash character, returning those following characters (the JS
regex capture `([^\x2f]+)` after the pattern). -/
def scanCaptureAfter (pat : List Char) : List Char → Option String
  | [] => none
  | c :: t =>
    if pat.isPrefixOf (c :: t) then
      let cap := ((c :: t).drop pat.length).takeWhile (fun d => d ≠ '/')
      if cap ≠ [] then some ⟨cap⟩ else scanCaptureAfter pat t
    else scanCaptureAfter pat t

/-- First match of the blog-category regex of line 676: the capture after
the leftmost `/blog/kategori/` followed by at least one non-slash. -/
def matchBlogKategoriCapture (url : String) : Option String :=
  scanCaptureAfter "/blog/kategori/".data url.data

/-- Blog categories (lines 644-687), including the toptanturkiye.com
URL-derived category and the `['Uncategorized']` default. -/
def blogCategoriesOf (url : String) (doc : DomDocument) : List String :=
  let cats := firstCategoryList doc blogCategorySelectors
  let cats :=
    if strContainsSub (strLower url) "toptanturkiye.com" then
      match matchBlogKategoriCapture url with
      | some slug => cats ++ [titleCaseSlug slug]
      | none => cats
    else cats
  if cats.length > 0 then cats else ["Uncategorized"]

/-- Blog content excerpt (lines 689-713). -/
def firstBlogContent (doc : DomDocument) : List String → Option String
  | [] => none
  | sel :: rest =>
    match doc.query sel with
    | some el =>
      let contentText := el.textContent.map strTrim
      if jsTruthy contentText && strLen (contentText.getD "") > 20 then
        some (strTake (contentText.getD "") 300 ++ "...")
      else firstBlogContent doc rest
    | none => firstBlogContent doc rest

/-- `> 0` on a JS number that may be NaN (`none`). -/
def intGt (a : Option Int) (k : Int) : Bool :=
  match a with
  | some n => n > k
  | none => false

/-- `< k` on a JS number that may be NaN (`none`). -/
def intLt (a : Option Int) (k : Int) : Bool :=
  match a with
  | some n => n < k
  | none => false

/-- Per-image source of the featured-image loop (lines 736-750): skips
declared-tiny images, preferring `src` then lazy-loading attributes. -/
def blogImgSrc (img : DomElement) : Option String :=
  let src := jsOr3 (img.attr "src") (img.attr "data-src") (img.attr "data-original")
  let width := jsParseInt ((jsOr (img.attr "width") (some "0")).getD "0")
  let height := jsParseInt ((jsOr (img.attr "height") (some "0")).getD "0")
  if intGt width 0 && intGt height 0 && (intLt width 100 || intLt height 100) then none
  else src

/-- The featured-image selector loop (lines 730-759). -/
def featuredBlogImages (doc : DomDocument) : List String → Option (List String)
  | [] => none
  | sel :: rest =>
    let elements := doc.queryAll sel
    if elements.length > 0 then
      let images := jsFilterTruthy (elements.map blogImgSrc)
      if images.length > 0 then some images else featuredBlogImages doc rest
    else featuredBlogImages doc rest

/-- One step of the relative-URL fix (lines 782-791); `new URL(url)`
throws when the page URL itself does not parse. -/
def fixImg (url : String) (img : String) : Except Unit String :=
  if img = "" then .ok ""
  else if strStarts img "//" then .ok ("https:" ++ img)
  else if !(strStarts img "http") && !(strStarts img "data:") then
    match parseURL url with
    | some u => .ok (if strStarts img "/" then u.origin ++ img else u.origin ++ "/" ++ img)
    | none => .error ()
  else .ok img

/-- Image collection when the prelude found none (lines 730-778): the
featured-image selector loop, else the content-image query with the
icon/logo/avatar/spinner/loading exclusion filter. -/
def blogImagesCollect (doc : DomDocument) : List String :=
  match featuredBlogImages doc blogImageSelectors with
  | some imgs => imgs
  | none =>
    let contentImages :=
      doc.queryAll "article img, .post-content img, .blog-content img, .icerik img"
    if contentImages.length > 0 then
      (jsFilterTruthy (contentImages.map (fun img =>
        jsOr (img.attr "src") (img.attr "data-src")))).filter (fun src =>
          !(strContainsSub src "icon") && !(strContainsSub src "logo") &&
          !(strContainsSub src "avatar") && !(strContainsSub src "spinner") &&
          !(strContainsSub src "loading"))
    else []

/-- The relative-URL fix pass (lines 780-793): applied only to a
non-empty list, dropping entries that fixed to the empty string; the
only failure point of the blog branch. -/
def fixImgsStep (url : String) (imgsA : List String) : Except Unit (List String) :=
  if imgsA.length > 0 then
    match imgsA.mapM (fixImg url) with
    | .ok f => .ok (f.filter (fun s => s ≠ ""))
    | .error e => .error e
  else .ok imgsA

/-- The Open Graph fallback (lines 795-801): an empty list is replaced by
the `og:image` content when that is truthy. -/
def ogFallback (og : Option String) (imgsB : List String) : List String :=
  if imgsB.length = 0 then (if jsTruthy og then [og.getD ""] else []) else imgsB

/-- The placeholder fallback (lines 803-806): a still-empty list becomes
the generic blog placeholder. -/
def placeholderFallback (l : List String) : List String :=
  if l.length = 0 then ["https://via.placeholder.com/800x400?text=Blog+Post"] else l

/-- The blog image pipeline (lines 716-807): featured selectors, content
images, relative-URL fixing, Open Graph fallback, placeholder fallback. -/
def blogImages (url : String) (doc : DomDocument) (images0 : List String) :
    Except Unit (List String) :=
  if images0.length ≠ 0 then .ok images0
  else
    match fixImgsStep url (blogImagesCollect doc) with
    | .error e => .error e
    | .ok imgsB =>
      .ok (placeholderFallback
        (ogFallback (contentOf doc "meta[property=\"og:image\"]") imgsB))

/-- The breadcrumb selector loop of `extractBreadcrumb`
(src/utils/sitemap.ts lines 1118-1125). -/
def breadcrumbLoop (doc : DomDocument) : List String → List String
  | [] => []
  | sel :: rest =>
    let elements := doc.queryAll sel
    if elements.length > 0 then
      jsFilterTruthy (elements.map (fun el => el.textContent.map strTrim))
    else breadcrumbLoop doc rest

/-- `extractBreadcrumb` (src/utils/sitemap.ts lines 1110-1128). -/
def extractBreadcrumb (doc : DomDocument) : List String :=
  breadcrumbLoop doc breadcrumbSelectors

/-- The blog path of `extractPageData`: the common prelude (lines 493-518)
followed by the blog branch (lines 523-808) and the breadcrumb step
(lines 1062-1065).  `Except.error` models the `new URL(url)` throw inside
the image fix, which the outer catch turns into the minimal fallback
record of type `others`. -/
def extractBlogPageData (url : String) (doc : DomDocument) (now : String)
    (dateScan : String → Option String) : Except Unit PageData :=
  match blogImages url doc (initialImages doc) with
  | .error e => .error e
  | .ok imgs =>
    let title := pageTitle doc url
    let desc1 :=
      match firstLongDescription doc blogDescriptionSelectors with
      | some t => t
      | none => pageDescription doc
    let bc := extractBreadcrumb doc
    .ok { url := url, title := some title,
          description := some (blogDescriptionStep doc title desc1),
          timestamp := some now, type := some "blog",
          date := blogDate doc now dateScan,
          blogCategories := some (blogCategoriesOf url doc),
          blogContent := firstBlogContent doc blogContentSelectors,
          images := some imgs,
          breadcrumb := if bc.length > 0 then some bc else none }

/-! ## Concrete inputs used by witnesses and counterexamples -/

/-- A record map holding one extraction result of type `others`, such as
the pipeline produces for a URL no classifier pattern matches. -/
def mapWithOthers : RecordMap :=
  [("https://x/foo", { url := "https://x/foo", title := some "Foo", type := some "others" })]

/-- A pre-existing extraction record living at one of the URLs the
Coverage Guarantor injects synthetic static pages at. -/
def origProductRecord : PageData :=
  { url := "https://x/sayfa/hakkimizda", title := some "Original", type := some "product" }

/-- A record map that already holds `origProductRecord`. -/
def mapWithOrig : RecordMap :=
  [("https://x/sayfa/hakkimizda", origProductRecord)]

/-- A document where every selector misses and the title is empty. -/
def docEmpty : DomDocument :=
  { title := "", query := fun _ => none, queryAll := fun _ => [], innerHTML := "" }

/-- The record the blog extractor produces for `docEmpty` at
`https://x/blog/icerik/abc`: every always-populated field filled by the
last fallback of its chain. -/
def blogSampleExtract : PageData :=
  { url := "https://x/blog/icerik/abc",
    title := some "abc",
    description := some "No description available",
    images := some ["https://via.placeholder.com/800x400?text=Blog+Post"],
    date := some "2026-01-01",
    blogCategories := some ["Uncategorized"],
    timestamp := some "2026-01-01T00:00:00.000Z",
    type := some "blog" }

/-- A network where the entry sitemap fetch fails. -/
def worldFailing : String → FetchResult :=
  fun _ => FetchResult.fail

/-- A network with a sitemap index whose first child fails and whose
second child lists one well-formed and one malformed URL. -/
def worldPartial : String → FetchResult :=
  fun u =>
    if u = "https://x/sitemap.xml" then
      FetchResult.index ["https://x/sitemap_a.xml", "https://x/sitemap_b.xml"]
    else if u = "https://x/sitemap_b.xml" then
      FetchResult.urlset ["https://x/page", "notaurl"]
    else FetchResult.fail

/-! ## Helper lemmas: strings and record maps -/

theorem strAppend_ne (a : String) {s t : String} (h : s ≠ t) : a ++ s ≠ a ++ t := by
  intro he
  apply h
  have hd := congrArg String.data he
  rw [String.data_append, String.data_append] at hd
  exact String.ext (List.append_cancel_left hd)

theorem lookupRecord_setRecord_self (m : RecordMap) (u : String) (d : PageData) :
    lookupRecord (setRecord m u d) u = some d := by
  induction m with
  | nil => simp [setRecord, lookupRecord]
  | cons p rest ih =>
    cases p with
    | mk k v =>
      by_cases h : k = u
      · simp [setRecord, h, lookupRecord]
      · simp [setRecord, h, lookupRecord, ih]

theorem lookupRecord_setRecord_ne (m : RecordMap) (u : String) (d : PageData)
    (u' : String) (h : u' ≠ u) :
    lookupRecord (setRecord m u d) u' = lookupRecord m u' := by
  induction m with
  | nil => simp [setRecord, lookupRecord, Ne.symm h]
  | cons p rest ih =>
    cases p with
    | mk k v =>
      by_cases hk : k = u
      · subst hk
        simp [setRecord, lookupRecord, Ne.symm h]
      · simp [setRecord, hk, lookupRecord, ih]

theorem lookupRecord_mem {m : RecordMap} {u : String} {d : PageData}
    (h : lookupRecord m u = some d) : (u, d) ∈ m := by
  induction m with
  | nil => simp [lookupRecord] at h
  | cons p rest ih =>
    cases p with
    | mk k v =>
      by_cases hk : k = u
      · subst hk
        simp [lookupRecord] at h
        subst h
        exact List.mem_cons_self _ _
      · simp [lookupRecord, hk] at h
        exact List.mem_cons_of_mem _ (ih h)

theorem countType_pos_of_mem {m : RecordMap} {u : String} {d : PageData} {t : String}
    (hm : (u, d) ∈ m) (ht : d.type = some t) : 0 < countType m t := by
  have hf : (u, d) ∈ m.filter (fun p => p.2.type = some t) :=
    List.mem_filter.mpr ⟨hm, by simp [ht]⟩
  exact List.length_pos.mpr (List.ne_nil_of_mem hf)

theorem countStaticBucket_pos_of_mem {m : RecordMap} {u : String} {d : PageData}
    (hm : (u, d) ∈ m) (ht : isStaticBucket d.type = true) : 0 < countStaticBucket m := by
  have hf : (u, d) ∈ m.filter (fun p => isStaticBucket p.2.type) :=
    List.mem_filter.mpr ⟨hm, by simp [ht]⟩
  exact List.length_pos.mpr (List.ne_nil_of_mem hf)

theorem countType_setRecord_ge (m : RecordMap) (u : String) (d : PageData) (t : String) :
    countType m t ≤ countType (setRecord m u d) t + 1 := by
  induction m with
  | nil => simp [countType]
  | cons p rest ih =>
    cases p with
    | mk k v =>
      simp only [countType] at ih
      by_cases hk : k = u
      · simp only [setRecord, if_pos hk, countType, List.filter_cons]
        by_cases h1 : v.type = some t <;> by_cases h2 : d.type = some t <;>
          simp [h1, h2] <;> omega
      · simp only [setRecord, if_neg hk, countType, List.filter_cons]
        by_cases h1 : v.type = some t <;> simp [h1] <;> omega

theorem anyType_of_mem {m : RecordMap} {u : String} {d : PageData} {t : String}
    (hm : (u, d) ∈ m) (ht : d.type = some t) : anyType m t = true := by
  unfold anyType
  rw [List.any_eq_true]
  exact ⟨(u, d), hm, by simp [ht]⟩

theorem lookupRecord_writeRecords_ne (ws : List (String × PageData)) (m : RecordMap)
    (u : String) (h : ∀ w ∈ ws, w.1 ≠ u) :
    lookupRecord (writeRecords m ws) u = lookupRecord m u := by
  induction ws generalizing m with
  | nil => rfl
  | cons w rest ih =>
    rw [writeRecords, ih _ (fun x hx => h x (List.mem_cons_of_mem _ hx)),
      lookupRecord_setRecord_ne _ _ _ _ (fun he => h w (List.mem_cons_self _ _) he.symm)]

/-! ## Helper lemmas: stats closed forms -/

theorem bumpStats_all (s : SiteStats) (d : PageData) :
    (bumpStats s d).all = s.all + 1 + (if normType d.type = "all" then 1 else 0) := by
  simp only [bumpStats]
  split_ifs <;> simp_all

theorem bumpStats_product (s : SiteStats) (d : PageData) :
    (bumpStats s d).product = s.product + (if normType d.type = "product" then 1 else 0) := by
  simp only [bumpStats]
  split_ifs <;> simp_all

theorem bumpStats_blog (s : SiteStats) (d : PageData) :
    (bumpStats s d).blog = s.blog + (if normType d.type = "blog" then 1 else 0) := by
  simp only [bumpStats]
  split_ifs <;> simp_all

theorem bumpStats_category (s : SiteStats) (d : PageData) :
    (bumpStats s d).category = s.category + (if normType d.type = "category" then 1 else 0) := by
  simp only [bumpStats]
  split_ifs <;> simp_all

theorem bumpStats_static (s : SiteStats) (d : PageData) :
    (bumpStats s d).static = s.static + (if isStaticBucket d.type then 1 else 0) := by
  simp only [bumpStats, isStaticBucket]
  split_ifs <;> simp_all

theorem foldStats_all (m : RecordMap) :
    ∀ s : SiteStats, (m.foldl (fun acc p => bumpStats acc p.2) s).all =
      s.all + m.length + countNorm m "all" := by
  induction m with
  | nil => intro s; simp [countNorm]
  | cons p rest ih =>
    intro s
    rw [List.foldl_cons, ih, bumpStats_all]
    by_cases hp : normType p.2.type = "all" <;>
      simp [countNorm, List.filter_cons, hp] <;> omega

theorem foldStats_product (m : RecordMap) :
    ∀ s : SiteStats, (m.foldl (fun acc p => bumpStats acc p.2) s).product =
      s.product + countNorm m "product" := by
  induction m with
  | nil => intro s; simp [countNorm]
  | cons p rest ih =>
    intro s
    rw [List.foldl_cons, ih, bumpStats_product]
    by_cases hp : normType p.2.type = "product" <;>
      simp [countNorm, List.filter_cons, hp] <;> omega

theorem foldStats_blog (m : RecordMap) :
    ∀ s : SiteStats, (m.foldl (fun acc p => bumpStats acc p.2) s).blog =
      s.blog + countNorm m "blog" := by
  induction m with
  | nil => intro s; simp [countNorm]
  | cons p rest ih =>
    intro s
    rw [List.foldl_cons, ih, bumpStats_blog]
    by_cases hp : normType p.2.type = "blog" <;>
      simp [countNorm, List.filter_cons, hp] <;> omega

theorem foldStats_category (m : RecordMap) :
    ∀ s : SiteStats, (m.foldl (fun acc p => bumpStats acc p.2) s).category =
      s.category + countNorm m "category" := by
  induction m with
  | nil => intro s; simp [countNorm]
  | cons p rest ih =>
    intro s
    rw [List.foldl_cons, ih, bumpStats_category]
    by_cases hp : normType p.2.type = "category" <;>
      simp [countNorm, List.filter_cons, hp] <;> omega

theorem foldStats_static (m : RecordMap) :
    ∀ s : SiteStats, (m.foldl (fun acc p => bumpStats acc p.2) s).static =
      s.static + countStaticBucket m := by
  induction m with
  | nil => intro s; simp [countStaticBucket]
  | cons p rest ih =>
    intro s
    rw [List.foldl_cons, ih, bumpStats_static]
    by_cases hp : isStaticBucket p.2.type = true <;>
      simp [countStaticBucket, List.filter_cons, hp] <;> omega

theorem getPageStats_all (m : RecordMap) :
    (getPageStats m).all = m.length + countNorm m "all" := by
  unfold getPageStats
  rw [foldStats_all]
  simp

theorem getPageStats_product (m : RecordMap) :
    (getPageStats m).product = countNorm m "product" := by
  unfold getPageStats
  rw [foldStats_product]
  simp

theorem getPageStats_blog (m : RecordMap) :
    (getPageStats m).blog = countNorm m "blog" := by
  unfold getPageStats
  rw [foldStats_blog]
  simp

theorem getPageStats_category (m : RecordMap) :
    (getPageStats m).category = countNorm m "category" := by
  unfold getPageStats
  rw [foldStats_category]
  simp

theorem getPageStats_static (m : RecordMap) :
    (getPageStats m).static = countStaticBucket m := by
  unfold getPageStats
  rw [foldStats_static]
  simp

theorem normType_eq_iff (o : Option String) (t : String) (h1 : t ≠ "static") (h2 : t ≠ "") :
    (normType o = t) ↔ o = some t := by
  cases o with
  | none => simp [normType, Ne.symm h1]
  | some ty =>
    by_cases hy : ty = ""
    · subst hy
      simp [normType, Ne.symm h1, Ne.symm h2]
    · simp [normType, hy]

theorem countNorm_eq_countType (m : RecordMap) (t : String) (h1 : t ≠ "static") (h2 : t ≠ "") :
    countNorm m t = countType m t := by
  unfold countNorm countType
  congr 1
  apply List.filter_congr
  intro p _
  simp [normType_eq_iff p.2.type t h1 h2]

theorem length_eq_sum_of_buckets (m : RecordMap) :
    m.length = countNorm m "all" + countNorm m "product" + countNorm m "blog" +
      countNorm m "category" + countStaticBucket m := by
  induction m with
  | nil => simp [countNorm, countStaticBucket]
  | cons p rest ih =>
    simp only [countNorm, countStaticBucket, List.filter_cons, List.length_cons] at *
    by_cases h1 : normType p.2.type = "all" <;>
      by_cases h2 : normType p.2.type = "product" <;>
      by_cases h3 : normType p.2.type = "blog" <;>
      by_cases h4 : normType p.2.type = "category" <;>
      simp [h1, h2, h3, h4, isStaticBucket] at * <;> omega

/-! ## Helper lemmas: batch scheduler -/

theorem processInBatches_eq_map {α ε β : Type} (items : List α) (handler : α → Except ε β) :
    processInBatches items handler = items.map (fun it => jsCatch (handler it)) := by
  have H : ∀ (n : Nat) (l : List α), l.length ≤ n →
      processInBatches l handler = l.map (fun it => jsCatch (handler it)) := by
    intro n
    induction n with
    | zero =>
      intro l hl
      have : l = [] := List.eq_nil_of_length_eq_zero (Nat.le_zero.mp hl)
      subst this
      unfold processInBatches
      rfl
    | succ n ih =>
      intro l hl
      match l with
      | [] => unfold processInBatches; rfl
      | a :: rest =>
        rw [processInBatches]
        rw [ih ((a :: rest).drop maxConcurrent)
          (by simp [List.length_drop, maxConcurrent]; simp at hl; omega)]
        rw [← List.map_append, List.take_append_drop]
  exact H items.length items le_rfl

/-! ## Helper lemmas: Coverage Guarantor -/

theorem anyType_of_lookup {m : RecordMap} {u : String} {d : PageData} {t : String}
    (h : lookupRecord m u = some d) (ht : d.type = some t) : anyType m t = true :=
  anyType_of_mem (lookupRecord_mem h) ht

theorem countType_pos_of_anyType {m : RecordMap} {t : String}
    (h : anyType m t = true) : 0 < countType m t := by
  unfold anyType at h
  rw [List.any_eq_true] at h
  obtain ⟨p, hp, hty⟩ := h
  simp only [decide_eq_true_eq] at hty
  exact countType_pos_of_mem (u := p.1) (d := p.2) (by simpa using hp) hty

theorem countStaticBucket_pos_of_lookup {m : RecordMap} {u : String} {d : PageData}
    (h : lookupRecord m u = some d) (ht : isStaticBucket d.type = true) :
    0 < countStaticBucket m :=
  countStaticBucket_pos_of_mem (lookupRecord_mem h) ht

/-- Every record the Coverage Guarantor writes sits at a URL of
`injectedUrls`; a URL outside that set keeps its incoming record. -/
theorem ensureMinimum_frame (b : String) (m : RecordMap) (now : String)
    (enc : String → String) (u : String) (hu : u ∉ injectedUrls b m) :
    lookupRecord (ensureMinimumPageTypes b m now enc) u = lookupRecord m u := by
  have hns : ∀ w ∈ staticPageWrites (normalizeBaseUrl b) (detectTurkishSite m) now,
      w.1 ≠ u := by
    intro w hw he
    apply hu
    unfold injectedUrls
    obtain ⟨page, hp, rfl⟩ := List.mem_map.mp hw
    rw [← he]
    exact List.mem_append_left _ (List.mem_append_left _
      (List.mem_append_left _ (List.mem_map_of_mem _ hp)))
  have hnb : ∀ w ∈ blogPostWrites (normalizeBaseUrl b) (detectTurkishSite m) now enc,
      w.1 ≠ u := by
    intro w hw he
    apply hu
    unfold injectedUrls
    obtain ⟨post, hp, rfl⟩ := List.mem_map.mp hw
    rw [← he]
    exact List.mem_append_left _ (List.mem_append_left _
      (List.mem_append_right _ (List.mem_map_of_mem _ hp)))
  have hnc : ∀ w ∈ categoryWrites (normalizeBaseUrl b) (detectTurkishSite m) now enc,
      w.1 ≠ u := by
    intro w hw he
    apply hu
    unfold injectedUrls
    obtain ⟨cat, hp, rfl⟩ := List.mem_map.mp hw
    rw [← he]
    exact List.mem_append_right _ (List.mem_map_of_mem _ hp)
  have hni : u ≠ normalizeBaseUrl b ++ "/blog" := by
    intro he
    apply hu
    unfold injectedUrls
    rw [he]
    exact List.mem_append_left _ (List.mem_append_right _ (List.mem_singleton.mpr rfl))
  unfold ensureMinimumPageTypes ensureMinimumBase
  split
  · rw [lookupRecord_writeRecords_ne _ _ _ hnc, lookupRecord_setRecord_ne _ _ _ _ hni,
      lookupRecord_writeRecords_ne _ _ _ hnb, lookupRecord_writeRecords_ne _ _ _ hns]
  · rw [lookupRecord_setRecord_ne _ _ _ _ hni,
      lookupRecord_writeRecords_ne _ _ _ hnb, lookupRecord_writeRecords_ne _ _ _ hns]

/-- The blog index record is present after the unconditional injections. -/
theorem ensureMinimumBase_lookup_blogIndex (b : String) (m : RecordMap) (now : String)
    (enc : String → String) :
    lookupRecord (ensureMinimumBase b m now enc) (normalizeBaseUrl b ++ "/blog") =
      some (blogIndexRecord (normalizeBaseUrl b) (detectTurkishSite m) now) := by
  unfold ensureMinimumBase
  exact lookupRecord_setRecord_self _ _ _

/-- After `ensureMinimumPageTypes` there is a record of type `static`
(the blog index page, which no later write shadows). -/
theorem ensureMinimum_staticBucket_pos (b : String) (m : RecordMap) (now : String)
    (enc : String → String) :
    0 < countStaticBucket (ensureMinimumPageTypes b m now enc) := by
  have hbase := ensureMinimumBase_lookup_blogIndex b m now enc
  have hsb : isStaticBucket (blogIndexRecord (normalizeBaseUrl b)
      (detectTurkishSite m) now).type = true := by
    simp [blogIndexRecord, isStaticBucket, normType]
  unfold ensureMinimumPageTypes
  split
  · have hnc : ∀ w ∈ categoryWrites (normalizeBaseUrl b) (detectTurkishSite m) now enc,
        w.1 ≠ normalizeBaseUrl b ++ "/blog" := by
      intro w hw
      cases htk : detectTurkishSite m <;>
        rw [htk] at hw <;>
        simp only [categoryWrites, syntheticCategories, categoryUrlPatternOf, Bool.false_eq_true,
          if_false, if_true, List.map, List.mem_cons, List.not_mem_nil, or_false] at hw <;>
        (rcases hw with h | h | h <;> subst h <;> exact strAppend_ne _ (by decide))
    have hfull : lookupRecord
        (writeRecords (ensureMinimumBase b m now enc)
          (categoryWrites (normalizeBaseUrl b) (detectTurkishSite m) now enc))
        (normalizeBaseUrl b ++ "/blog") =
        some (blogIndexRecord (normalizeBaseUrl b) (detectTurkishSite m) now) := by
      rw [lookupRecord_writeRecords_ne _ _ _ hnc]
      exact hbase
    exact countStaticBucket_pos_of_lookup hfull hsb
  · exact countStaticBucket_pos_of_lookup hbase hsb

/-- The last injected blog post is present after the unconditional
injections (the blog index write sits at a different URL). -/
theorem ensureMinimumBase_blogPost (b : String) (m : RecordMap) (now : String)
    (enc : String → String) :
    ∃ u, (∃ d, lookupRecord (ensureMinimumBase b m now enc) u = some d ∧
        d.type = some "blog") ∧
      (∀ w ∈ categoryWrites (normalizeBaseUrl b) (detectTurkishSite m) now enc,
        w.1 ≠ u) := by
  unfold ensureMinimumBase
  cases htk : detectTurkishSite m
  · refine ⟨normalizeBaseUrl b ++ ("/blog/" ++ "industry-news"), ?_, ?_⟩
    · rw [lookupRecord_setRecord_ne _ _ _ _ (strAppend_ne _ (by decide))]
      simp only [blogPostWrites, syntheticBlogPosts, blogUrlPatternOf, Bool.false_eq_true,
        if_false, List.map, writeRecords]
      refine ⟨_, lookupRecord_setRecord_self _ _ _, ?_⟩
      rfl
    · intro w hw
      simp only [categoryWrites, syntheticCategories, categoryUrlPatternOf, Bool.false_eq_true,
        if_false, List.map, List.mem_cons, List.not_mem_nil, or_false] at hw
      rcases hw with h | h | h <;> subst h <;> exact strAppend_ne _ (by decide)
  · refine ⟨normalizeBaseUrl b ++ ("/blog/icerik/" ++ "sektor-haberleri"), ?_, ?_⟩
    · rw [lookupRecord_setRecord_ne _ _ _ _ (strAppend_ne _ (by decide))]
      simp only [blogPostWrites, syntheticBlogPosts, blogUrlPatternOf, if_true,
        List.map, writeRecords]
      refine ⟨_, lookupRecord_setRecord_self _ _ _, ?_⟩
      rfl
    · intro w hw
      simp only [categoryWrites, syntheticCategories, categoryUrlPatternOf, if_true,
        List.map, List.mem_cons, List.not_mem_nil, or_false] at hw
      rcases hw with h | h | h <;> subst h <;> exact strAppend_ne _ (by decide)

/-- After `ensureMinimumPageTypes` a record of type `blog` always exists. -/
theorem ensureMinimum_any_blog (b : String) (m : RecordMap) (now : String)
    (enc : String → String) :
    anyType (ensureMinimumPageTypes b m now enc) "blog" = true := by
  obtain ⟨u, ⟨d, hd, hty⟩, hnc⟩ := ensureMinimumBase_blogPost b m now enc
  unfold ensureMinimumPageTypes
  split
  · exact anyType_of_lookup (by rw [lookupRecord_writeRecords_ne _ _ _ hnc]; exact hd) hty
  · exact anyType_of_lookup hd hty

/-- After `ensureMinimumPageTypes` at least one category record exists:
either at least 3 were already present, or the injection loop just wrote
3 synthetic ones. -/
theorem ensureMinimum_category_pos (b : String) (m : RecordMap) (now : String)
    (enc : String → String) :
    0 < countType (ensureMinimumPageTypes b m now enc) "category" := by
  unfold ensureMinimumPageTypes
  split
  · cases htk : detectTurkishSite m
    · have h1 : ∃ d, lookupRecord (writeRecords (ensureMinimumBase b m now enc)
          (categoryWrites (normalizeBaseUrl b) false now enc))
          (normalizeBaseUrl b ++ ("/category/" ++ "sale-items")) = some d ∧
          d.type = some "category" := by
        simp only [categoryWrites, syntheticCategories, categoryUrlPatternOf,
          Bool.false_eq_true, if_false, List.map, writeRecords]
        refine ⟨_, lookupRecord_setRecord_self _ _ _, ?_⟩
        rfl
      obtain ⟨d, hd, hty⟩ := h1
      exact countType_pos_of_mem (lookupRecord_mem hd) hty
    · have h1 : ∃ d, lookupRecord (writeRecords (ensureMinimumBase b m now enc)
          (categoryWrites (normalizeBaseUrl b) true now enc))
          (normalizeBaseUrl b ++ ("/kategori/" ++ "indirimli-urunler")) = some d ∧
          d.type = some "category" := by
        simp only [categoryWrites, syntheticCategories, categoryUrlPatternOf, if_true,
          List.map, writeRecords]
        refine ⟨_, lookupRecord_setRecord_self _ _ _, ?_⟩
        rfl
      obtain ⟨d, hd, hty⟩ := h1
      exact countType_pos_of_mem (lookupRecord_mem hd) hty
  · omega

/-! ## Helper lemmas: blog extractor fallback chains -/

theorem jsTruthy_getD {o : Option String} (h : jsTruthy o = true) : o.getD "" ≠ "" := by
  cases o with
  | none => simp [jsTruthy] at h
  | some s => simpa [jsTruthy] using h

theorem jsOrS_ne {a b : String} (hb : b ≠ "") : jsOrS a b ≠ "" := by
  unfold jsOrS
  split <;> simp_all

theorem pageTitle_ne (doc : DomDocument) (url : String) : pageTitle doc url ≠ "" :=
  jsOrS_ne (jsOrS_ne (by decide))

theorem pageDescription_ne (doc : DomDocument) : pageDescription doc ≠ "" := by
  unfold pageDescription jsOr3 jsOr
  split
  · exact jsTruthy_getD (by assumption)
  · split
    · exact jsTruthy_getD (by assumption)
    · decide

theorem firstLongDescription_ne {doc : DomDocument} {sels : List String} {t : String}
    (h : firstLongDescription doc sels = some t) : t ≠ "" := by
  induction sels with
  | nil => simp [firstLongDescription] at h
  | cons sel rest ih =>
    unfold firstLongDescription at h
    split at h
    · simp only [] at h
      split at h
      · rename_i hcond
        injection h with h
        subst h
        exact jsTruthy_getD (by
          rw [Bool.and_eq_true] at hcond
          exact hcond.1)
      · exact ih h
    · exact ih h

theorem blogDescriptionStep_eq (doc : DomDocument) (title : String) {desc : String}
    (h : desc ≠ "") : blogDescriptionStep doc title desc = desc := by
  simp [blogDescriptionStep, h]

theorem defaultsToUncategorized_ne (cats : List String) :
    (if cats.length > 0 then cats else ["Uncategorized"]) ≠ [] := by
  split
  · rename_i hlen
    exact List.ne_nil_of_length_pos hlen
  · simp

theorem blogCategoriesOf_ne (url : String) (doc : DomDocument) :
    blogCategoriesOf url doc ≠ [] := by
  unfold blogCategoriesOf
  exact defaultsToUncategorized_ne _

theorem placeholderFallback_ne (l : List String) : placeholderFallback l ≠ [] := by
  unfold placeholderFallback
  split
  · simp
  · rename_i hlen
    intro he
    simp [he] at hlen

theorem blogImages_ok_ne {url : String} {doc : DomDocument} {images0 l : List String}
    (h : blogImages url doc images0 = .ok l) : l ≠ [] := by
  unfold blogImages at h
  split at h
  · rename_i h0
    injection h with h
    subst h
    intro he
    simp [he] at h0
  · split at h
    · simp at h
    · injection h with h
      subst h
      exact placeholderFallback_ne _

/-! ## Claim theorems -/

/-- C1 counterexample: a record map already holds a (product) record at
`https://x/sayfa/hakkimizda`; `ensureMinimumPageTypes` overwrites it with
its synthetic static page, so the returned map does not contain the
pre-existing record at that URL — refuting "injection never overwrites an
existing record for the same URL" as stated. -/
theorem ensureMinimum_overwrites_counterexample :
    lookupRecord mapWithOrig "https://x/sayfa/hakkimizda" = some origProductRecord ∧
    lookupRecord (ensureMinimumPageTypes "https://x" mapWithOrig "T0" (fun s => s))
      "https://x/sayfa/hakkimizda" ≠ some origProductRecord := by
  constructor
  · rfl
  · decide

/-- C1 amended: the synthetic injection leaves every entry at a URL
outside the fixed injected-URL set (`injectedUrls`) unchanged; entries at
the injected URLs themselves are unconditionally replaced. -/
theorem ensureMinimum_frame_outside_injected (b : String) (m : RecordMap) (now : String)
    (enc : String → String) (u : String) (r : PageData)
    (hr : lookupRecord m u = some r) (hu : u ∉ injectedUrls b m) :
    lookupRecord (ensureMinimumPageTypes b m now enc) u = some r := by
  rw [ensureMinimum_frame b m now enc u hu]
  exact hr

/-- C1 amended witness: the record at `https://x/foo` (not an injected
URL) is preserved verbatim through injection. -/
theorem ensureMinimum_frame_outside_injected_witness :
    lookupRecord (ensureMinimumPageTypes "https://x" mapWithOthers "T0" (fun s => s))
      "https://x/foo" =
      some { url := "https://x/foo", title := some "Foo", type := some "others" } :=
  ensureMinimum_frame_outside_injected "https://x" mapWithOthers "T0" (fun s => s)
    "https://x/foo" _ (by rfl) (by decide)

/-- C2 counterexample: on a map holding one record of type `others`,
`getPageStats` tallies that record under `static` although zero records
have type `static` — so a record is not counted under its own `type`. -/
theorem getPageStats_others_counterexample :
    ¬ ((getPageStats mapWithOthers).static = countType mapWithOthers "static") := by
  decide

/-- C2 amended: when no record carries the literal type `"all"` (which
the pipeline never produces), the `all` total equals the number of keys
and equals the sum of the four per-category counters; `product`, `blog`
and `category` each count exactly the records of their own type, while
`static` additionally absorbs every record whose type is missing, empty
or outside the four counters (such as `others`). -/
theorem getPageStats_totals (m : RecordMap) (h : ∀ p ∈ m, p.2.type ≠ some "all") :
    (getPageStats m).all = m.length ∧
    (getPageStats m).all = (getPageStats m).product + (getPageStats m).blog +
      (getPageStats m).category + (getPageStats m).static ∧
    (getPageStats m).product = countType m "product" ∧
    (getPageStats m).blog = countType m "blog" ∧
    (getPageStats m).category = countType m "category" ∧
    (getPageStats m).static = countStaticBucket m := by
  have hall : countNorm m "all" = 0 := by
    unfold countNorm
    rw [List.length_eq_zero, List.filter_eq_nil_iff]
    intro p hp
    simp only [decide_eq_true_eq]
    rw [normType_eq_iff _ _ (by decide) (by decide)]
    exact h p hp
  have hsum := length_eq_sum_of_buckets m
  refine ⟨?_, ?_, ?_, ?_, ?_, ?_⟩
  · rw [getPageStats_all, hall]
    omega
  · rw [getPageStats_all, getPageStats_product, getPageStats_blog, getPageStats_category,
      getPageStats_static, hall]
    omega
  · rw [getPageStats_product, countNorm_eq_countType _ _ (by decide) (by decide)]
  · rw [getPageStats_blog, countNorm_eq_countType _ _ (by decide) (by decide)]
  · rw [getPageStats_category, countNorm_eq_countType _ _ (by decide) (by decide)]
  · rw [getPageStats_static]

/-- C2 amended witness: the totals identity evaluated on a concrete
one-record map with no `"all"`-typed record. -/
theorem getPageStats_totals_witness :
    (getPageStats mapWithOthers).all = mapWithOthers.length ∧
    (getPageStats mapWithOthers).all = (getPageStats mapWithOthers).product +
      (getPageStats mapWithOthers).blog + (getPageStats mapWithOthers).category +
      (getPageStats mapWithOthers).static ∧
    (getPageStats mapWithOthers).product = countType mapWithOthers "product" ∧
    (getPageStats mapWithOthers).blog = countType mapWithOthers "blog" ∧
    (getPageStats mapWithOthers).category = countType mapWithOthers "category" ∧
    (getPageStats mapWithOthers).static = countStaticBucket mapWithOthers :=
  getPageStats_totals mapWithOthers (by decide)

/-- C3 counterexample: `categorizeUrl` is not total over strings — on the
non-empty malformed string `"notaurl"` the `new URL(url)` constructor
throws (modelled as `none`) instead of returning a label. -/
theorem categorizeUrl_throws_counterexample : categorizeUrl "notaurl" = none := by
  decide

/-- C3 amended: `categorizeUrl` returns `static` on the empty string and
one of the five labels on every string the URL constructor accepts; on
any other non-empty string it throws (callers catch this and bucket the
URL as `others`). -/
theorem categorizeUrl_amended (url : String) :
    (url = "" → categorizeUrl url = some "static") ∧
    ((parseURL url).isSome →
      categorizeUrl url = some "product" ∨ categorizeUrl url = some "category" ∨
      categorizeUrl url = some "blog" ∨ categorizeUrl url = some "static" ∨
      categorizeUrl url = some "others") ∧
    (url ≠ "" → parseURL url = none → categorizeUrl url = none) := by
  refine ⟨?_, ?_, ?_⟩
  · intro h
    subst h
    decide
  · intro hp
    by_cases hu : url = ""
    · subst hu
      decide
    · unfold categorizeUrl
      rw [if_neg hu]
      split
      · rename_i heq
        rw [heq] at hp
        simp at hp
      · split_ifs <;> simp
  · intro hne hp
    unfold categorizeUrl
    rw [if_neg hne, hp]

/-- C3 amended witness: the three behaviours at concrete inputs. -/
theorem categorizeUrl_amended_witness :
    categorizeUrl "" = some "static" ∧
    (categorizeUrl "https://x/a" = some "product" ∨
      categorizeUrl "https://x/a" = some "category" ∨
      categorizeUrl "https://x/a" = some "blog" ∨
      categorizeUrl "https://x/a" = some "static" ∨
      categorizeUrl "https://x/a" = some "others") ∧
    categorizeUrl "zzz" = none :=
  ⟨(categorizeUrl_amended "").1 rfl,
   (categorizeUrl_amended "https://x/a").2.1 (by decide),
   (categorizeUrl_amended "zzz").2.2 (by decide) (by decide)⟩

/-- C4: the five reference inputs of the spec map to the documented
labels. -/
theorem categorizeUrl_reference_inputs :
    categorizeUrl "https://x/" = some "static" ∧
    categorizeUrl "https://x/urun/123" = some "product" ∧
    categorizeUrl "https://x/blog/icerik/abc" = some "blog" ∧
    categorizeUrl "https://x/kategori/ayakkabi" = some "category" ∧
    categorizeUrl "https://x/random/xyz" = some "others" := by
  decide

/-- C5: `fetchSitemapUrls` returns the empty list as soon as `depth > 5`,
for every network and resolver — together with the totality of the Lean
definition (each recursive call strictly increases `depth`, bounding the
recursion at depth 6) this is the termination guarantee on arbitrary,
including cyclic, sitemap-index graphs. -/
theorem fetchSitemapUrls_depth_bound (world : String → FetchResult)
    (resolve : String → Option String) (url : String) (depth : Nat)
    (h : 5 < depth) : fetchSitemapUrls world resolve url depth = [] := by
  unfold fetchSitemapUrls
  simp [h]

/-- C5 witness: a call at depth 6 returns `[]` even on a network that
answers with URL sets. -/
theorem fetchSitemapUrls_depth_bound_witness :
    fetchSitemapUrls worldPartial (fun _ => none) "https://x/sitemap.xml" 6 = [] :=
  fetchSitemapUrls_depth_bound worldPartial (fun _ => none) "https://x/sitemap.xml" 6
    (by decide)

/-- C6: `processInBatches` returns exactly one result per input item, in
input order: slot `i` holds the settled outcome of the handler on item
`i` (a rejection becomes that slot's `{error}` object), so one rejecting
handler never disturbs the other slots. -/
theorem processInBatches_length_order {α ε β : Type} (items : List α)
    (handler : α → Except ε β) :
    (processInBatches items handler).length = items.length ∧
    ∀ i : Nat, (processInBatches items handler)[i]? =
      (items[i]?).map (fun it => jsCatch (handler it)) := by
  rw [processInBatches_eq_map]
  constructor
  · exact List.length_map _ _
  · intro i
    exact List.getElem?_map _ _ _

/-- C7: `fetchSitemapUrls` never raises: a failing fetch or parse at the
resolved node yields `[]` for that node, and every string it ever
returns passes the URL-validity filter (malformed entries are dropped). -/
theorem fetchSitemapUrls_failure_and_validity (world : String → FetchResult)
    (resolve : String → Option String) (url : String) (depth : Nat) :
    (world (resolveSitemapUrl resolve url) = .fail →
      fetchSitemapUrls world resolve url depth = []) ∧
    (∀ s ∈ fetchSitemapUrls world resolve url depth, isValidUrl s = true) := by
  constructor
  · intro hf
    unfold fetchSitemapUrls
    split
    · rfl
    · simp only [hf]
  · intro s hs
    unfold fetchSitemapUrls at hs
    split at hs
    · simp at hs
    · split at hs
      · simp at hs
      · exact (List.mem_filter.mp hs).2
      · exact (List.mem_filter.mp hs).2
      · simp at hs

/-- C7 witness: a failing entry node returns `[]`, and a member of the
output of a partially failing sitemap tree (one child fails, the other
lists a well-formed and a malformed URL) is a valid URL. -/
theorem fetchSitemapUrls_failure_and_validity_witness :
    fetchSitemapUrls worldFailing (fun _ => none) "https://x/sitemap.xml" 0 = [] ∧
    isValidUrl "https://x/page" = true := by
  constructor
  · exact (fetchSitemapUrls_failure_and_validity worldFailing (fun _ => none)
      "https://x/sitemap.xml" 0).1 rfl
  · refine (fetchSitemapUrls_failure_and_validity worldPartial (fun _ => none)
      "https://x/sitemap.xml" 0).2 "https://x/page" ?_
    have heval : fetchSitemapUrls worldPartial (fun _ => none) "https://x/sitemap.xml" 0 =
        ["https://x/page"] := by
      rw [fetchSitemapUrls]
      norm_num [worldPartial, resolveSitemapUrl]
      rw [fetchSitemapUrls, fetchSitemapUrls]
      norm_num [worldPartial, resolveSitemapUrl]
      decide
    rw [heval]
    exact List.mem_singleton.mpr rfl

/-- C8 counterexample: starting from a non-empty classification (one
`others` record), the pipeline's final stats report zero `product`
records — so not every supported category reaches `stats[c] ≥ 1`. -/
theorem processSitemap_product_zero_counterexample :
    mapWithOthers.length = 1 ∧
    (processSitemapRecords "https://x" mapWithOthers "2026-01-01T00:00:00.000Z"
      (fun s => s)).2.product = 0 := by
  constructor
  · rfl
  · decide

/-- C8 amended: after `processSitemap`'s injection stages, the final
stats always satisfy `static ≥ 1`, `blog ≥ 1` and `category ≥ 1`
(unconditionally, for every input map); no such guarantee holds for
`product`. -/
theorem processSitemap_static_blog_category_min (siteUrl : String)
    (extracted : RecordMap) (now : String) (enc : String → String) :
    1 ≤ (processSitemapRecords siteUrl extracted now enc).2.static ∧
    1 ≤ (processSitemapRecords siteUrl extracted now enc).2.blog ∧
    1 ≤ (processSitemapRecords siteUrl extracted now enc).2.category := by
  unfold processSitemapRecords
  have hforce : forceSampleBlog siteUrl
      (ensureMinimumPageTypes siteUrl extracted now enc) now =
      ensureMinimumPageTypes siteUrl extracted now enc := by
    unfold forceSampleBlog
    rw [if_pos (ensureMinimum_any_blog siteUrl extracted now enc)]
  rw [hforce]
  refine ⟨?_, ?_, ?_⟩
  · rw [getPageStats_static]
    exact ensureMinimum_staticBucket_pos siteUrl extracted now enc
  · rw [getPageStats_blog, countNorm_eq_countType _ _ (by decide) (by decide)]
    exact countType_pos_of_anyType (ensureMinimum_any_blog siteUrl extracted now enc)
  · rw [getPageStats_category, countNorm_eq_countType _ _ (by decide) (by decide)]
    exact ensureMinimum_category_pos siteUrl extracted now enc

/-- C9: whenever the extractor handles a successfully fetched page as a
blog page (and the blog branch completes), the returned record has type
`blog`, a non-empty title and description, a non-empty category list and
a non-empty image list — even if every selector missed. -/
theorem extractBlogPageData_guaranteed_fields (url : String) (doc : DomDocument)
    (now : String) (dateScan : String → Option String) (d : PageData)
    (hb : isBlogHandled url doc = true)
    (hok : extractBlogPageData url doc now dateScan = .ok d) :
    d.type = some "blog" ∧ jsTruthy d.title = true ∧ jsTruthy d.description = true ∧
    d.blogCategories.getD [] ≠ [] ∧ d.images.getD [] ≠ [] := by
  unfold extractBlogPageData at hok
  split at hok
  · simp at hok
  · rename_i imgs heq
    injection hok with hok
    subst hok
    have hdesc : (match firstLongDescription doc blogDescriptionSelectors with
        | some t => t
        | none => pageDescription doc) ≠ "" := by
      split
      · rename_i t ht
        exact firstLongDescription_ne ht
      · exact pageDescription_ne doc
    refine ⟨rfl, ?_, ?_, ?_, ?_⟩
    · simp only [jsTruthy, decide_eq_true_eq]
      exact pageTitle_ne doc url
    · simp only [jsTruthy, decide_eq_true_eq]
      rw [blogDescriptionStep_eq _ _ hdesc]
      exact hdesc
    · simp only [Option.getD_some]
      exact blogCategoriesOf_ne url doc
    · simp only [Option.getD_some]
      exact blogImages_ok_ne heq

/-- C9 witness: a blog URL with a document where every selector misses
still yields non-empty title, description, categories and images. -/
theorem extractBlogPageData_guaranteed_fields_witness :
    blogSampleExtract.type = some "blog" ∧
    jsTruthy blogSampleExtract.title = true ∧
    jsTruthy blogSampleExtract.description = true ∧
    blogSampleExtract.blogCategories.getD [] ≠ [] ∧
    blogSampleExtract.images.getD [] ≠ [] :=
  extractBlogPageData_guaranteed_fields "https://x/blog/icerik/abc" docEmpty
    "2026-01-01T00:00:00.000Z" (fun _ => none) blogSampleExtract (by decide) (by rfl)

/-- C10: the `maxUrls` cap of the POST route: `'all'` keeps every URL, a
numeric string `n` keeps exactly the first `n`, and an absent or
non-numeric value makes `parseInt` yield `NaN`, so `urls.slice(0, NaN)`
keeps zero URLs. -/
theorem limitUrls_spec (urls : List String) (s : String) (n : Nat) :
    (limitUrls urls (some "all") = urls) ∧
    (jsParseInt s = some (n : Int) → limitUrls urls (some s) = urls.take n) ∧
    (jsParseInt s = none → s ≠ "all" → limitUrls urls (some s) = []) ∧
    (limitUrls urls none = []) := by
  refine ⟨?_, ?_, ?_, ?_⟩
  · simp [limitUrls]
  · intro hp
    by_cases hs : s = "all"
    · subst hs
      rw [show jsParseInt "all" = none from by decide] at hp
      simp at hp
    · unfold limitUrls
      rw [if_neg (show ¬(some s = some "all") by simpa using hs)]
      change jsSliceTo urls (jsParseInt s) = _
      rw [hp]
      have hnn : ¬((n : Int) < 0) := by omega
      simp [jsSliceTo, hnn]
  · intro hp hs
    unfold limitUrls
    rw [if_neg (show ¬(some s = some "all") by simpa using hs)]
    change jsSliceTo urls (jsParseInt s) = _
    rw [hp]
    rfl
  · unfold limitUrls
    rw [if_neg (by simp)]
    change jsSliceTo urls (jsParseInt "undefined") = _
    rw [show jsParseInt "undefined" = none from by decide]
    rfl

/-- C10 witness: the three cap behaviours on a three-element URL list. -/
theorem limitUrls_spec_witness :
    limitUrls ["a", "b", "c"] (some "all") = ["a", "b", "c"] ∧
    limitUrls ["a", "b", "c"] (some "2") = ["a", "b"] ∧
    limitUrls ["a", "b", "c"] (some "abc") = [] ∧
    limitUrls ["a", "b", "c"] none = [] := by
  refine ⟨(limitUrls_spec ["a", "b", "c"] "2" 2).1, ?_, ?_,
    (limitUrls_spec ["a", "b", "c"] "2" 2).2.2.2⟩
  · have h := (limitUrls_spec ["a", "b", "c"] "2" 2).2.1 (by decide)
    simpa using h
  · exact (limitUrls_spec ["a", "b", "c"] "abc" 0).2.2.1 (by decide) (by decide)

end Sitemap
